import Mathlib

/-!
Shallow embedding of the energy-accounting core of HewlettPackard/EnergyCounter.

Machine integers are modelled as `Nat`; the C `uint64_t`/`uint32_t` wrapping
is written explicitly (`% 2^64`, `% 2^32`) exactly where the source can wrap
on its reachable inputs.  The C `double` values (`energy_resolution` and the
intermediate products) are modelled as `ℚ`: on the ranges exercised by the
source (counter deltas below `2^33`, resolutions of the form `0.5^k`) the
double arithmetic of the source is exact, so the rational model is faithful.
A C assignment of a non-negative `double` expression to a `uint64_t` field
truncates toward zero; that is `Nat.floor` here (`ratToU64`).  Code paths
that abort the process (failed `assert`) are modelled with `Option`:
`none` is process termination.
-/

namespace EnergyCounter

/-- Truncation of a non-negative double expression stored into a `uint64_t`
field, as in `dev->energy_interval = <double expr>;` in the source. -/
def ratToU64 (q : ℚ) : ℕ := ⌊q⌋₊

/-- Decoding of the RAPL unit register, from cpu.c line 90 and dram.c line 86:
`pow(0.5, (double)((msr_unit >> 8) & MSR_ENERGY_UNIT_MASK))` with
`MSR_ENERGY_UNIT_MASK = 0x1f`. -/
def decodeResolution (msr_unit : ℕ) : ℚ := (1 / 2 : ℚ) ^ ((msr_unit >>> 8) &&& 0x1f)

/-- The `Unit_t` record of interface.h (the fields the accounting core reads
and writes; the file descriptor, serial and bus id are I/O identities and are
not part of the state the claims are about).  `energy_resolution` is a C
`double`, every other field an unsigned machine integer. -/
structure Unit_t where
  timestamp : ℕ
  energy_resolution : ℚ
  energy_raw : ℕ
  energy_acc : ℕ
  energy_interval : ℕ
  model : ℕ
  busy_percent : ℕ
  deriving Repr, DecidableEq

/-- A freshly discovered unit: `memset(..., 0, ...)` zeroes every field. -/
def initUnit : Unit_t :=
  { timestamp := 0, energy_resolution := 0, energy_raw := 0, energy_acc := 0
    energy_interval := 0, model := 0, busy_percent := 0 }

/-- The MI250 subsystem id from amd_gpu.c (`MI250 = 2828`). -/
def MI250 : ℕ := 2828

/-- The Max 1550 model id from intel_gpu.c (`MAX1550 = 1550`). -/
def MAX1550 : ℕ := 1550

/-- Embedding of `_cpu_package_fetch_energy` (cpu.c lines 56-91).  The two MSR
reads are inputs: `msr_energy` is the package energy counter register and
`msr_unit` the power-unit register.  The unit register is only consulted when
`energy_resolution` is not yet positive. -/
def cpu_package_fetch_energy (package : Unit_t) (msr_energy msr_unit : ℕ) : Unit_t :=
  let p := { package with energy_raw := msr_energy }
  if 0 < p.energy_resolution then p
  else { p with energy_resolution := decodeResolution msr_unit }

/-- The wraparound expression of cpu.c lines 106-109 and dram.c lines 102-105,
on `uint64_t` arithmetic: `raw - last` when `raw >= last`, otherwise
`((1LU << 32) - last) + raw` where every operation wraps modulo `2^64`. -/
def wrapDelta (last raw : ℕ) : ℕ :=
  if last ≤ raw then raw - last
  else ((2 ^ 32 + (2 ^ 64 - last % 2 ^ 64)) % 2 ^ 64 + raw) % 2 ^ 64

/-- Embedding of `_cpu_package_update_files` (cpu.c lines 100-117): fetch the
new raw value (and lazily the resolution), compute the wraparound-corrected
interval energy, truncate it into the `uint64_t` field and accumulate. -/
def cpu_package_update_files (package : Unit_t) (msr_energy msr_unit : ℕ) : Unit_t :=
  let last := package.energy_raw
  let p := cpu_package_fetch_energy package msr_energy msr_unit
  let interval := ratToU64 (p.energy_resolution * (wrapDelta last p.energy_raw : ℚ))
  { p with energy_interval := interval, energy_acc := p.energy_acc + interval }

/-- Embedding of `_dram_package_fetch_energy` (dram.c lines 55-87); the body
is the same lazy-resolution logic as the CPU module. -/
def dram_package_fetch_energy (package : Unit_t) (msr_energy msr_unit : ℕ) : Unit_t :=
  let p := { package with energy_raw := msr_energy }
  if 0 < p.energy_resolution then p
  else { p with energy_resolution := decodeResolution msr_unit }

/-- Embedding of `_dram_package_update_files` (dram.c lines 96-113). -/
def dram_package_update_files (package : Unit_t) (msr_energy msr_unit : ℕ) : Unit_t :=
  let last := package.energy_raw
  let p := dram_package_fetch_energy package msr_energy msr_unit
  let interval := ratToU64 (p.energy_resolution * (wrapDelta last p.energy_raw : ℚ))
  { p with energy_interval := interval, energy_acc := p.energy_acc + interval }

/-- The interval-energy expression shared by amd_gpu.c lines 78 and 135:
`energy_resolution * (energy_raw - last_energy_raw) / 1E6` truncated into a
`uint64_t`. -/
def energyOfDelta (res : ℚ) (last raw : ℕ) : ℕ :=
  ratToU64 (res * ((raw - last : ℕ) : ℚ) / 1000000)

/-- Embedding of `_amd_device_fetch_energy` (amd_gpu.c lines 54-80).  The
ROCm SMI read supplies `raw`, `res` and `ts`; the failed-read path calls
`exit` and is outside the state space.  `assert(energy_raw >= last)` aborts
the process: that is the `none` result.  The first iteration
(`last_energy_raw == 0`) returns before touching interval or accumulator. -/
def amd_device_fetch_energy (dev : Unit_t) (raw : ℕ) (res : ℚ) (ts : ℕ) : Option Unit_t :=
  let last := dev.energy_raw
  if raw < last then none
  else
    let d := { dev with energy_raw := raw, timestamp := ts, energy_resolution := res }
    if last = 0 then some d
    else
      let interval := energyOfDelta res last raw
      some { d with energy_interval := interval, energy_acc := d.energy_acc + interval }

/-- The elapsed-seconds expression of amd_gpu.c line 143:
`(dev->timestamp - last_timestamp) / 1E9` on `uint64_t` operands (the
subtraction wraps modulo `2^64`), truncated back into a `uint64_t`. -/
def elapsedSeconds (last_ts ts : ℕ) : ℕ :=
  ((ts + (2 ^ 64 - last_ts % 2 ^ 64)) % 2 ^ 64) / 1000000000

/-- The share coefficient of amd_gpu.c line 148:
`(0.005 * dev->busy_percent) - (0.005 * dev->peer->busy_percent) + 0.5`. -/
def energyRatio (busyA busyB : ℕ) : ℚ :=
  (5 / 1000 : ℚ) * busyA - (5 / 1000 : ℚ) * busyB + 1 / 2

/-- Embedding of `_amd_device_fetch_energy_mi250` (amd_gpu.c lines 102-155)
for a unit that holds the peer link (`dev->peer != NULL`; the later-indexed
unit of the pair returns immediately and is not modelled).  Inputs are the
SMI reads: the shared counter `raw` with resolution `res` and timestamp `ts`,
and the two utilization reads `busyA` (for `dev`) and `busyB` (for the peer).
Returns the updated `(dev, peer)` pair, or `none` when the monotonicity
`assert` aborts the process. -/
def amd_device_fetch_energy_mi250 (dev peer : Unit_t) (raw : ℕ) (res : ℚ) (ts : ℕ)
    (busyA busyB : ℕ) : Option (Unit_t × Unit_t) :=
  let last := dev.energy_raw
  let last_timestamp := dev.timestamp
  let d0 := { dev with busy_percent := busyA }
  let p0 := { peer with busy_percent := busyB }
  if raw < last then none
  else
    let d := { d0 with energy_raw := raw, timestamp := ts, energy_resolution := res }
    if last = 0 then some (d, p0)
    else
      let energy := energyOfDelta res last raw
      let elapsed_s := elapsedSeconds last_timestamp ts
      let energy_idle := 40 * elapsed_s
      let energy_min_idle := if 2 * energy_idle < energy then energy - 2 * energy_idle else 0
      let energy_ratio := energyRatio busyA busyB
      let dInterval := ratToU64 ((energy_idle : ℚ) + energy_ratio * (energy_min_idle : ℚ))
      let pInterval := ratToU64 ((energy_idle : ℚ) + (1 - energy_ratio) * (energy_min_idle : ℚ))
      some ({ d with energy_interval := dInterval, energy_acc := d.energy_acc + dInterval },
            { p0 with energy_interval := pInterval, energy_acc := p0.energy_acc + pInterval })

/-- Embedding of `_intel_device_update_files` (intel_gpu.c lines 63-97): raw
microjoule delta divided by `1E6` and truncated into the `uint64_t` interval,
then halved with integer division when the model is a Max 1550. -/
def intel_device_update_files (dev : Unit_t) (raw : ℕ) : Option Unit_t :=
  let last := dev.energy_raw
  let d := { dev with energy_raw := raw }
  if last = 0 then some d
  else if raw < last then none
  else
    let interval0 := (raw - last) / 1000000
    let interval := if d.model = MAX1550 then interval0 / 2 else interval0
    some { d with energy_interval := interval, energy_acc := d.energy_acc + interval }

/-- Embedding of `_nvidia_device_update_files` (nvidia_gpu.c lines 65-87):
millijoule delta divided by `1E3` and truncated into the interval field. -/
def nvidia_device_update_files (dev : Unit_t) (raw : ℕ) : Option Unit_t :=
  let last := dev.energy_raw
  let d := { dev with energy_raw := raw }
  if last = 0 then some d
  else if raw < last then none
  else
    let interval := (raw - last) / 1000
    some { d with energy_interval := interval, energy_acc := d.energy_acc + interval }

/-- The `Overhead_t` record of ecounter.c lines 66-72; all four fields are
`uint32_t`. -/
structure Overhead_t where
  min : ℕ
  max : ℕ
  mov_average : ℕ
  n_samples : ℕ
  deriving Repr, DecidableEq

/-- The overhead state as `init` (ecounter.c line 306) leaves it:
`memset(0)` followed by `ec->overhead.min = INT_MAX`. -/
def initOverhead : Overhead_t :=
  { min := 2147483647, max := 0, mov_average := 0, n_samples := 0 }

/-- The measured-power expression of ecounter.c lines 249-259: every unit's
`uint64_t` interval energy is accumulated into a `uint32_t` (wrapping modulo
`2^32`), then divided by the configured interval length. -/
def power_interval_of (intervals : List ℕ) (interval : ℕ) : ℕ :=
  (intervals.foldl (fun acc x => (acc + x) % 2 ^ 32) 0) / interval

/-- Embedding of the statistics part of `compute_overhead` (ecounter.c lines
245-276).  `node_power` is the probed node power and `power_interval` the
measured average power of the cycle; the multiplication and addition on
`mov_average` are `uint32_t` arithmetic, hence the `% 2^32`. -/
def compute_overhead (node_power power_interval : ℕ) (overhead : Overhead_t) : Overhead_t :=
  let overhead_interval := if power_interval < node_power then node_power - power_interval else 0
  if power_interval = 0 then overhead
  else
    { min := Nat.min overhead_interval overhead.min
      max := Nat.max overhead_interval overhead.max
      mov_average := ((overhead.mov_average * overhead.n_samples + overhead_interval) % 2 ^ 32) /
        (overhead.n_samples + 1)
      n_samples := overhead.n_samples + 1 }

/-- Iterated CPU package update over a list of `(msr_energy, msr_unit)`
samples: the sampling loop of ecounter.c calling `cpu_update` each cycle. -/
def runCpu (u : Unit_t) : List (ℕ × ℕ) → Unit_t
  | [] => u
  | s :: rest => runCpu (cpu_package_update_files u s.1 s.2) rest

/-- The `energy_interval` value produced by each cycle of a CPU trace. -/
def cpuIntervals (u : Unit_t) : List (ℕ × ℕ) → List ℕ
  | [] => []
  | s :: rest =>
    let u' := cpu_package_update_files u s.1 s.2
    u'.energy_interval :: cpuIntervals u' rest

/-- Iterated AMD (non-MI250) update over `(raw, res, ts)` samples; `none` when
any cycle's monotonicity assertion aborts the process. -/
def runAmd (u : Unit_t) : List (ℕ × ℚ × ℕ) → Option Unit_t
  | [] => some u
  | s :: rest =>
    match amd_device_fetch_energy u s.1 s.2.1 s.2.2 with
    | none => none
    | some u' => runAmd u' rest

/-- The interval energy an AMD cycle attributes to the sampling period: zero
on the baseline-free first iteration (amd_gpu.c lines 74-76), the truncated
scaled delta otherwise. -/
def amdProducedInterval (u : Unit_t) (raw : ℕ) (res : ℚ) : ℕ :=
  if u.energy_raw = 0 then 0 else energyOfDelta res u.energy_raw raw

/-- The per-cycle attributed interval energies of an AMD trace. -/
def amdProduced (u : Unit_t) : List (ℕ × ℚ × ℕ) → List ℕ
  | [] => []
  | s :: rest =>
    match amd_device_fetch_energy u s.1 s.2.1 s.2.2 with
    | none => []
    | some u' => amdProducedInterval u s.1 s.2.1 :: amdProduced u' rest

/-- Iterated CPU resolution/raw fetch over `(msr_energy, msr_unit)` samples. -/
def runCpuFetch (u : Unit_t) : List (ℕ × ℕ) → Unit_t
  | [] => u
  | s :: rest => runCpuFetch (cpu_package_fetch_energy u s.1 s.2) rest

/-! Helper lemmas shared by several claims. -/

theorem ratToU64_cast_le {q : ℚ} (hq : 0 ≤ q) : (ratToU64 q : ℚ) ≤ q :=
  Nat.floor_le hq

theorem lt_ratToU64_add_one (q : ℚ) : q < ratToU64 q + 1 :=
  Nat.lt_floor_add_one q

theorem le_ratToU64 {n : ℕ} {q : ℚ} (h : (n : ℚ) ≤ q) : n ≤ ratToU64 q :=
  Nat.le_floor h

theorem energyRatio_nonneg {a b : ℕ} (hb : b ≤ 100) : 0 ≤ energyRatio a b := by
  unfold energyRatio
  have hb' : (b : ℚ) ≤ 100 := by exact_mod_cast hb
  have ha' : (0 : ℚ) ≤ (a : ℚ) := Nat.cast_nonneg a
  nlinarith

theorem energyRatio_le_one {a b : ℕ} (ha : a ≤ 100) : energyRatio a b ≤ 1 := by
  unfold energyRatio
  have ha' : (a : ℚ) ≤ 100 := by exact_mod_cast ha
  have hb' : (0 : ℚ) ≤ (b : ℚ) := Nat.cast_nonneg b
  nlinarith

theorem cpu_package_fetch_energy_acc (u : Unit_t) (e m : ℕ) :
    (cpu_package_fetch_energy u e m).energy_acc = u.energy_acc := by
  unfold cpu_package_fetch_energy
  dsimp only
  split <;> rfl

theorem cpu_package_fetch_energy_raw (u : Unit_t) (e m : ℕ) :
    (cpu_package_fetch_energy u e m).energy_raw = e := by
  unfold cpu_package_fetch_energy
  dsimp only
  split <;> rfl

theorem cpu_package_fetch_energy_res_pos {u : Unit_t} (e m : ℕ)
    (h : 0 < u.energy_resolution) :
    (cpu_package_fetch_energy u e m).energy_resolution = u.energy_resolution := by
  unfold cpu_package_fetch_energy
  dsimp only
  rw [if_pos h]

theorem dram_package_fetch_energy_res_pos {u : Unit_t} (e m : ℕ)
    (h : 0 < u.energy_resolution) :
    (dram_package_fetch_energy u e m).energy_resolution = u.energy_resolution := by
  unfold dram_package_fetch_energy
  dsimp only
  rw [if_pos h]

theorem cpu_package_fetch_energy_res_zero {u : Unit_t} (e m : ℕ)
    (h : u.energy_resolution = 0) :
    (cpu_package_fetch_energy u e m).energy_resolution = decodeResolution m := by
  unfold cpu_package_fetch_energy
  dsimp only
  rw [if_neg (by rw [h]; exact lt_irrefl 0)]

theorem dram_package_fetch_energy_res_zero {u : Unit_t} (e m : ℕ)
    (h : u.energy_resolution = 0) :
    (dram_package_fetch_energy u e m).energy_resolution = decodeResolution m := by
  unfold dram_package_fetch_energy
  dsimp only
  rw [if_neg (by rw [h]; exact lt_irrefl 0)]

theorem decodeResolution_pos (m : ℕ) : 0 < decodeResolution m :=
  pow_pos (by norm_num) _

theorem cpu_package_update_files_interval {u : Unit_t} (e m : ℕ)
    (hres : 0 < u.energy_resolution) :
    (cpu_package_update_files u e m).energy_interval =
      ratToU64 (u.energy_resolution * (wrapDelta u.energy_raw e : ℚ)) := by
  unfold cpu_package_update_files
  dsimp only
  rw [cpu_package_fetch_energy_res_pos _ _ hres, cpu_package_fetch_energy_raw]

theorem cpu_package_update_files_acc (u : Unit_t) (e m : ℕ) :
    (cpu_package_update_files u e m).energy_acc =
      u.energy_acc + (cpu_package_update_files u e m).energy_interval := by
  unfold cpu_package_update_files
  simp [cpu_package_fetch_energy_acc]

theorem runCpu_acc_sum (u : Unit_t) (l : List (ℕ × ℕ)) :
    (runCpu u l).energy_acc = u.energy_acc + (cpuIntervals u l).sum := by
  induction l generalizing u with
  | nil => simp [runCpu, cpuIntervals]
  | cons s rest ih =>
    simp only [runCpu, cpuIntervals, List.sum_cons]
    rw [ih, cpu_package_update_files_acc]
    omega

theorem amd_device_fetch_energy_acc (u : Unit_t) (raw : ℕ) (res : ℚ) (ts : ℕ) (v : Unit_t)
    (h : amd_device_fetch_energy u raw res ts = some v) :
    v.energy_acc = u.energy_acc + amdProducedInterval u raw res := by
  unfold amd_device_fetch_energy at h
  dsimp only at h
  by_cases h1 : raw < u.energy_raw
  · rw [if_pos h1] at h
    cases h
  · rw [if_neg h1] at h
    by_cases h2 : u.energy_raw = 0
    · rw [if_pos h2] at h
      cases h
      simp [amdProducedInterval, h2]
    · rw [if_neg h2] at h
      cases h
      unfold amdProducedInterval
      rw [if_neg h2]

theorem runAmd_acc_sum (u : Unit_t) (l : List (ℕ × ℚ × ℕ)) (v : Unit_t)
    (h : runAmd u l = some v) :
    v.energy_acc = u.energy_acc + (amdProduced u l).sum := by
  induction l generalizing u with
  | nil =>
    unfold runAmd at h
    cases h
    simp [amdProduced]
  | cons s rest ih =>
    unfold runAmd at h
    unfold amdProduced
    cases hstep : amd_device_fetch_energy u s.1 s.2.1 s.2.2 with
    | none =>
      rw [hstep] at h
      cases h
    | some u2 =>
      rw [hstep] at h
      dsimp only at h ⊢
      rw [List.sum_cons, ih u2 h, amd_device_fetch_energy_acc u s.1 s.2.1 s.2.2 u2 hstep]
      omega

theorem split_floor_bounds (i M : ℕ) (r : ℚ) (hr0 : 0 ≤ r) (hr1 : r ≤ 1) :
    i ≤ ratToU64 ((i : ℚ) + r * M) ∧ i ≤ ratToU64 ((i : ℚ) + (1 - r) * M) ∧
    2 * i + M - 1 ≤ ratToU64 ((i : ℚ) + r * M) + ratToU64 ((i : ℚ) + (1 - r) * M) ∧
    ratToU64 ((i : ℚ) + r * M) + ratToU64 ((i : ℚ) + (1 - r) * M) ≤ 2 * i + M := by
  have hM0 : (0 : ℚ) ≤ (M : ℚ) := Nat.cast_nonneg M
  have hi0 : (0 : ℚ) ≤ (i : ℚ) := Nat.cast_nonneg i
  have hx : (0 : ℚ) ≤ r * M := mul_nonneg hr0 hM0
  have hy : (0 : ℚ) ≤ (1 - r) * M := mul_nonneg (by linarith) hM0
  have h1 : (i : ℚ) ≤ (i : ℚ) + r * M := by linarith
  have h2 : (i : ℚ) ≤ (i : ℚ) + (1 - r) * M := by linarith
  have hA1 : (ratToU64 ((i : ℚ) + r * M) : ℚ) ≤ (i : ℚ) + r * M :=
    ratToU64_cast_le (by linarith)
  have hA2 : (ratToU64 ((i : ℚ) + (1 - r) * M) : ℚ) ≤ (i : ℚ) + (1 - r) * M :=
    ratToU64_cast_le (by linarith)
  have hB1 : (i : ℚ) + r * M < ratToU64 ((i : ℚ) + r * M) + 1 := lt_ratToU64_add_one _
  have hB2 : (i : ℚ) + (1 - r) * M < ratToU64 ((i : ℚ) + (1 - r) * M) + 1 :=
    lt_ratToU64_add_one _
  have hsum : r * M + (1 - r) * M = (M : ℚ) := by ring
  refine ⟨le_ratToU64 h1, le_ratToU64 h2, ?_, ?_⟩
  · have hq : ((2 * i + M : ℕ) : ℚ) <
        ((ratToU64 ((i : ℚ) + r * M) + ratToU64 ((i : ℚ) + (1 - r) * M) + 2 : ℕ) : ℚ) := by
      push_cast
      linarith
    have := Nat.cast_lt.mp hq
    omega
  · have hq : ((ratToU64 ((i : ℚ) + r * M) + ratToU64 ((i : ℚ) + (1 - r) * M) : ℕ) : ℚ) ≤
        ((2 * i + M : ℕ) : ℚ) := by
      push_cast
      linarith
    exact Nat.cast_le.mp hq

/-! Theorems settling the claims. -/

/-- Claim C2: on the very first sample of a Unit's lifetime (sentinel
`last_raw == 0`, no interval recorded yet) the AMD and NVIDIA updates leave
`energy_interval` at zero and `energy_acc` unchanged: no delta is computed. -/
theorem C2_first_sample_no_delta (dev : Unit_t) (raw : ℕ) (res : ℚ) (ts raw2 : ℕ)
    (h1 : dev.energy_raw = 0) (h2 : dev.energy_interval = 0) :
    (∃ post, amd_device_fetch_energy dev raw res ts = some post ∧
      post.energy_interval = 0 ∧ post.energy_acc = dev.energy_acc) ∧
    (∃ post, nvidia_device_update_files dev raw2 = some post ∧
      post.energy_interval = 0 ∧ post.energy_acc = dev.energy_acc) := by
  constructor
  · exact ⟨{ dev with energy_raw := raw, timestamp := ts, energy_resolution := res },
      by simp [amd_device_fetch_energy, h1], h2, rfl⟩
  · exact ⟨{ dev with energy_raw := raw2 },
      by simp [nvidia_device_update_files, h1], h2, rfl⟩

/-- Witness for C2 at a concrete first sample. -/
theorem C2_first_sample_no_delta_witness :
    (∃ post, amd_device_fetch_energy initUnit 7 1 3 = some post ∧
      post.energy_interval = 0 ∧ post.energy_acc = initUnit.energy_acc) ∧
    (∃ post, nvidia_device_update_files initUnit 9 = some post ∧
      post.energy_interval = 0 ∧ post.energy_acc = initUnit.energy_acc) :=
  C2_first_sample_no_delta initUnit 7 1 3 9 rfl rfl

/-- Claim C1 counterexample: `energy_interval` is a `uint64_t`, so the
product `resolution × delta` is truncated on assignment.  With resolution
`0.5`, previous raw value `5` and new raw value `6` the code stores `0`
Joules, not the claimed `0.5`. -/
theorem C1_wraparound_counterexample :
    ((cpu_package_update_files { initUnit with energy_resolution := 1 / 2, energy_raw := 5 }
        6 0).energy_interval : ℚ) ≠ (1 / 2 : ℚ) * ((6 : ℚ) - 5) := by
  have h : (cpu_package_update_files
      { initUnit with energy_resolution := 1 / 2, energy_raw := 5 } 6 0).energy_interval = 0 := by
    rw [cpu_package_update_files_interval 6 0 (by norm_num)]
    have hw : wrapDelta 5 6 = 1 := rfl
    show ratToU64 ((1 / 2 : ℚ) * (wrapDelta 5 6 : ℚ)) = 0
    rw [hw]
    unfold ratToU64
    rw [← Int.floor_toNat]
    norm_num
  rw [h]
  norm_num

/-- Claim C1 (amended): for CPU and DRAM packages with a known (positive)
resolution and raw values below `2^32`, the raw-count delta is the claimed
wraparound-safe quantity and is non-negative, and `energy_interval` is the
truncation of `resolution × delta` to an integer Joule count:
`resolution × delta − 1 < energy_interval ≤ resolution × delta`.  The DRAM
update computes exactly the same interval as the CPU update. -/
theorem C1_wraparound_truncated (package : Unit_t) (msr_energy msr_unit : ℕ)
    (hres : 0 < package.energy_resolution)
    (hraw : msr_energy < 2 ^ 32) (hlast : package.energy_raw < 2 ^ 32) :
    ∃ delta : ℕ,
      (package.energy_raw ≤ msr_energy →
        (delta : ℤ) = (msr_energy : ℤ) - package.energy_raw) ∧
      (msr_energy < package.energy_raw →
        (delta : ℤ) = (2 ^ 32 - (package.energy_raw : ℤ)) + msr_energy) ∧
      0 ≤ (delta : ℤ) ∧
      ((cpu_package_update_files package msr_energy msr_unit).energy_interval : ℚ) ≤
        package.energy_resolution * delta ∧
      package.energy_resolution * delta <
        (cpu_package_update_files package msr_energy msr_unit).energy_interval + 1 ∧
      (dram_package_update_files package msr_energy msr_unit).energy_interval =
        (cpu_package_update_files package msr_energy msr_unit).energy_interval := by
  have hI := cpu_package_update_files_interval msr_energy msr_unit hres
  refine ⟨wrapDelta package.energy_raw msr_energy, ?_, ?_, Int.natCast_nonneg _, ?_, ?_, rfl⟩
  · intro h
    unfold wrapDelta
    rw [if_pos h]
    omega
  · intro h
    unfold wrapDelta
    rw [if_neg (not_le.mpr h)]
    omega
  · rw [hI]
    exact ratToU64_cast_le (mul_nonneg hres.le (Nat.cast_nonneg _))
  · rw [hI]
    exact lt_ratToU64_add_one _

/-- Witness for C1 at resolution `0.5`, previous raw value 5, new raw value 6. -/
theorem C1_wraparound_truncated_witness :
    ∃ delta : ℕ,
      ((5 : ℕ) ≤ 6 → (delta : ℤ) = (6 : ℤ) - ((5 : ℕ) : ℤ)) ∧
      ((6 : ℕ) < 5 → (delta : ℤ) = (2 ^ 32 - ((5 : ℕ) : ℤ)) + ((6 : ℕ) : ℤ)) ∧
      0 ≤ (delta : ℤ) ∧
      ((cpu_package_update_files { initUnit with energy_resolution := 1 / 2, energy_raw := 5 }
          6 0).energy_interval : ℚ) ≤ (1 / 2 : ℚ) * delta ∧
      (1 / 2 : ℚ) * delta <
        (cpu_package_update_files { initUnit with energy_resolution := 1 / 2, energy_raw := 5 }
          6 0).energy_interval + 1 ∧
      (dram_package_update_files { initUnit with energy_resolution := 1 / 2, energy_raw := 5 }
          6 0).energy_interval =
        (cpu_package_update_files { initUnit with energy_resolution := 1 / 2, energy_raw := 5 }
          6 0).energy_interval :=
  C1_wraparound_truncated { initUnit with energy_resolution := 1 / 2, energy_raw := 5 } 6 0
    (by norm_num) (by decide) (by decide)

/-- Claim C7: a cycle whose measured power is zero is treated as degenerate
and leaves the whole overhead statistics record untouched. -/
theorem C7_zero_power_frame (node_power : ℕ) (st : Overhead_t) :
    compute_overhead node_power 0 st = st := rfl

/-- Claim C3: for CPU packages each update only adds to the accumulator, a
trace of N updates accumulates exactly the sum of the N interval values, and
from the zeroed process-start state the accumulator equals that sum; for AMD
devices a surviving trace accumulates exactly the per-cycle attributed
interval energies (zero on the baseline-free first cycle) and the accumulator
never decreases. -/
theorem C3_energy_acc_monotone_sum :
    (∀ (u : Unit_t) (e m : ℕ), u.energy_acc ≤ (cpu_package_update_files u e m).energy_acc) ∧
    (∀ (u : Unit_t) (l : List (ℕ × ℕ)),
      (runCpu u l).energy_acc = u.energy_acc + (cpuIntervals u l).sum) ∧
    (∀ l : List (ℕ × ℕ), (runCpu initUnit l).energy_acc = (cpuIntervals initUnit l).sum) ∧
    (∀ (u v : Unit_t) (l : List (ℕ × ℚ × ℕ)), runAmd u l = some v →
      v.energy_acc = u.energy_acc + (amdProduced u l).sum ∧
      u.energy_acc ≤ v.energy_acc) := by
  refine ⟨fun u e m => ?_, runCpu_acc_sum,
    fun l => by rw [runCpu_acc_sum]; exact Nat.zero_add _,
    fun u v l h => ⟨runAmd_acc_sum u l v h,
      by rw [runAmd_acc_sum u l v h]; exact Nat.le_add_right _ _⟩⟩
  rw [cpu_package_update_files_acc]
  exact Nat.le_add_right _ _

/-- Witness for C3: a one-cycle CPU trace and a one-cycle AMD trace from the
process-start state. -/
theorem C3_energy_acc_monotone_sum_witness :
    initUnit.energy_acc ≤ (cpu_package_update_files initUnit 3 0).energy_acc ∧
    (runCpu initUnit [(1, 2560)]).energy_acc = (cpuIntervals initUnit [(1, 2560)]).sum ∧
    (∃ v, runAmd initUnit [(5, 1, 0)] = some v ∧
      v.energy_acc = initUnit.energy_acc + (amdProduced initUnit [(5, 1, 0)]).sum ∧
      initUnit.energy_acc ≤ v.energy_acc) :=
  ⟨C3_energy_acc_monotone_sum.1 initUnit 3 0,
   C3_energy_acc_monotone_sum.2.2.1 [(1, 2560)],
   ⟨_, rfl, C3_energy_acc_monotone_sum.2.2.2 initUnit _ [(5, 1, 0)] rfl⟩⟩

/-- Claim C4 counterexample: the two per-die intervals are `uint64_t` fields,
so each share is truncated before storing.  With a combined interval energy
of 1 J, zero elapsed time (idle floor 0 J) and equal utilizations (ratio
`0.5`), each die stores `0` J: the pair sums to `0`, not to the claimed
`2×energy_idle + energy_above_idle = 1`. -/
theorem C4_split_sum_counterexample :
    (amd_device_fetch_energy_mi250 { initUnit with energy_raw := 1 } initUnit
        2 1000000 0 0 0).map (fun q => q.1.energy_interval + q.2.energy_interval) =
      some 0 ∧
    2 * (40 * elapsedSeconds 0 0) +
      (energyOfDelta 1000000 1 2 - 2 * (40 * elapsedSeconds 0 0)) = 1 := by
  have he : elapsedSeconds 0 0 = 0 := by decide
  have he' : elapsedSeconds initUnit.timestamp 0 = 0 := by decide
  have hE : energyOfDelta 1000000 1 2 = 1 := by
    unfold energyOfDelta ratToU64
    rw [← Int.floor_toNat]
    norm_num
  refine ⟨?_, by rw [he, hE]⟩
  unfold amd_device_fetch_energy_mi250
  dsimp only
  rw [if_neg (by decide : ¬ (2 : ℕ) < 1), if_neg (by decide : ¬ (1 : ℕ) = 0)]
  simp only [Option.map_some']
  rw [he', hE]
  norm_num [energyRatio]
  unfold ratToU64
  simp only [← Int.floor_toNat]
  norm_num

/-- Claim C4 (amended): for a peer-holding MI250 unit on a non-first sample
with utilizations in `[0,100]`, both per-die interval energies are at least
`energy_idle`, and their sum lies within one Joule below
`2×energy_idle + energy_above_idle` (truncating each share to an integer
Joule count can lose at most one Joule of the combined value; the sum is
exact whenever `ratio × energy_above_idle` is an integer). -/
theorem C4_split_idle_floor_sum (dev peer : Unit_t) (raw : ℕ) (res : ℚ)
    (ts busyA busyB : ℕ)
    (h0 : dev.energy_raw ≠ 0) (hle : dev.energy_raw ≤ raw)
    (hA : busyA ≤ 100) (hB : busyB ≤ 100) :
    ∃ d p : Unit_t,
      amd_device_fetch_energy_mi250 dev peer raw res ts busyA busyB = some (d, p) ∧
      ∀ energy_idle energy_min_idle : ℕ,
        energy_idle = 40 * elapsedSeconds dev.timestamp ts →
        energy_min_idle = (if 2 * energy_idle < energyOfDelta res dev.energy_raw raw
          then energyOfDelta res dev.energy_raw raw - 2 * energy_idle else 0) →
        energy_idle ≤ d.energy_interval ∧ energy_idle ≤ p.energy_interval ∧
        2 * energy_idle + energy_min_idle - 1 ≤ d.energy_interval + p.energy_interval ∧
        d.energy_interval + p.energy_interval ≤ 2 * energy_idle + energy_min_idle := by
  unfold amd_device_fetch_energy_mi250
  dsimp only
  rw [if_neg (not_lt.mpr hle), if_neg h0]
  refine ⟨_, _, rfl, ?_⟩
  intro ei emi hei hemi
  subst hei
  subst hemi
  exact split_floor_bounds _ _ _ (energyRatio_nonneg hB) (energyRatio_le_one hA)

/-- Witness for C4: 2000 J combined over 50 s with utilizations 60 and 40. -/
theorem C4_split_idle_floor_sum_witness :
    ∃ d p : Unit_t,
      amd_device_fetch_energy_mi250 { initUnit with energy_raw := 1 } initUnit
        2001 1000000 50000000000 60 40 = some (d, p) ∧
      ∀ energy_idle energy_min_idle : ℕ,
        energy_idle = 40 * elapsedSeconds { initUnit with energy_raw := 1 }.timestamp
          50000000000 →
        energy_min_idle = (if 2 * energy_idle <
            energyOfDelta 1000000 { initUnit with energy_raw := 1 }.energy_raw 2001
          then energyOfDelta 1000000 { initUnit with energy_raw := 1 }.energy_raw 2001 -
            2 * energy_idle else 0) →
        energy_idle ≤ d.energy_interval ∧ energy_idle ≤ p.energy_interval ∧
        2 * energy_idle + energy_min_idle - 1 ≤ d.energy_interval + p.energy_interval ∧
        d.energy_interval + p.energy_interval ≤ 2 * energy_idle + energy_min_idle :=
  C4_split_idle_floor_sum { initUnit with energy_raw := 1 } initUnit 2001 1000000
    50000000000 60 40 (by decide) (by decide) (by decide) (by decide)

/-- Claim C5 counterexample: the source computes the share ratio without any
clamp, so a utilization input above 100 drives it outside `[0,1]`:
at `busy_A = 300, busy_B = 0` the ratio is `2`. -/
theorem C5_ratio_counterexample : energyRatio 300 0 = 2 ∧ ¬ energyRatio 300 0 ≤ 1 := by
  norm_num [energyRatio]

/-- Claim C5 (amended): the share ratio equals `0.5 + 0.005×(busy_A − busy_B)`
and is monotone (non-decreasing) in the utilization difference; it lies in
`[0,1]` whenever both utilizations are in `[0,100]`, but no defensive clamp is
applied, so out-of-range utilization inputs can leave `[0,1]`. -/
theorem C5_ratio_linear_monotone :
    (∀ busyA busyB : ℕ,
      energyRatio busyA busyB = 1 / 2 + (5 / 1000 : ℚ) * ((busyA : ℚ) - busyB)) ∧
    (∀ a b a' b' : ℕ, (a : ℤ) - b ≤ (a' : ℤ) - b' → energyRatio a b ≤ energyRatio a' b') ∧
    (∀ a b : ℕ, a ≤ 100 → b ≤ 100 → 0 ≤ energyRatio a b ∧ energyRatio a b ≤ 1) := by
  refine ⟨fun a b => by unfold energyRatio; ring, fun a b a' b' h => ?_,
    fun a b ha hb => ⟨energyRatio_nonneg hb, energyRatio_le_one ha⟩⟩
  have h' : ((a : ℚ) - b) ≤ ((a' : ℚ) - b') := by exact_mod_cast h
  have h2 := mul_le_mul_of_nonneg_left h' (by norm_num : (0 : ℚ) ≤ 5 / 1000)
  unfold energyRatio
  linarith

/-- Witness for C5 at concrete utilizations. -/
theorem C5_ratio_linear_monotone_witness :
    energyRatio 10 20 ≤ energyRatio 30 5 ∧
    (0 ≤ energyRatio 60 40 ∧ energyRatio 60 40 ≤ 1) :=
  ⟨C5_ratio_linear_monotone.2.1 10 20 30 5 (by decide),
   C5_ratio_linear_monotone.2.2 60 40 (by norm_num) (by norm_num)⟩

/-- Claim C8 counterexample: `init` sets the estimator's `min` to `INT_MAX`
(`2^31 − 1`), not to the maximum representable value of its `uint32_t` type
(`2^32 − 1`); and a first sample whose overhead is exactly `2^31 − 1`
(node power `2^31`, measured power `1`) does not lower `min` at all. -/
theorem C8_min_init_counterexample :
    initOverhead.min ≠ 2 ^ 32 - 1 ∧
    0 < (1 : ℕ) ∧
    (compute_overhead 2147483648 1 initOverhead).min = initOverhead.min := by
  refine ⟨by decide, by decide, ?_⟩
  decide

/-- Claim C8 (amended): `min` starts at `INT_MAX = 2^31 − 1`; every first
non-degenerate sample whose overhead is strictly below `2^31 − 1` sets `min`
to that overhead, strictly lowering it. -/
theorem C8_min_first_sample (node_power p : ℕ) (hp : 0 < p)
    (hlt : node_power - p < 2147483647) :
    initOverhead.min = 2147483647 ∧
    (compute_overhead node_power p initOverhead).min = node_power - p ∧
    (compute_overhead node_power p initOverhead).min < initOverhead.min := by
  have hp' : ¬ p = 0 := hp.ne'
  refine ⟨rfl, ?_, ?_⟩ <;>
    · unfold compute_overhead initOverhead
      simp only [if_neg hp']
      split <;> simp <;> omega

/-- Witness for C8: node power 300 W, measured 250 W for the first sample. -/
theorem C8_min_first_sample_witness :
    initOverhead.min = 2147483647 ∧
    (compute_overhead 300 250 initOverhead).min = 300 - 250 ∧
    (compute_overhead 300 250 initOverhead).min < initOverhead.min :=
  C8_min_first_sample 300 250 (by decide) (by decide)

/-- Claim C6 counterexample: the moving-average numerator
`mov_average * n_samples + overhead` is `uint32_t` arithmetic and wraps on
reachable states.  Starting from the initialized statistics, two cycles with
node power `3×10^9` W (a valid positive probe reading, well inside `uint32_t`)
and measured power 250 W drive the second cycle's numerator past `2^32`: the
code stores `852516102` where the claimed incremental-average formula gives
`2999999750`. -/
theorem C6_overhead_wrap_counterexample :
    0 < (250 : ℕ) ∧
    (compute_overhead 3000000000 250
        (compute_overhead 3000000000 250 initOverhead)).mov_average ≠
      ((compute_overhead 3000000000 250 initOverhead).mov_average *
          (compute_overhead 3000000000 250 initOverhead).n_samples +
        (3000000000 - 250)) /
        ((compute_overhead 3000000000 250 initOverhead).n_samples + 1) := by
  decide

/-- Claim C6 (amended): on a cycle with strictly positive measured power (the
wrapped `uint32_t` sum of interval energies divided by the interval length),
the overhead is the non-negative part of node power minus measured power, and
`min`, `max` and `n_samples` update exactly as claimed; the moving average is
computed on the `uint32_t` numerator,
`avg' = ((avg×n + overhead) mod 2^32)/(n+1)`, which coincides with the
claimed incremental-average formula exactly when `avg×n + overhead < 2^32`. -/
theorem C6_overhead_statistics_update (node_power itv p : ℕ) (l : List ℕ) (st : Overhead_t)
    (hpl : p = power_interval_of l itv) (hp : 0 < p) :
    ((node_power - p : ℕ) : ℤ) = max ((node_power : ℤ) - p) 0 ∧
    (compute_overhead node_power p st).min = Nat.min st.min (node_power - p) ∧
    (compute_overhead node_power p st).max = Nat.max st.max (node_power - p) ∧
    (compute_overhead node_power p st).n_samples = st.n_samples + 1 ∧
    (compute_overhead node_power p st).mov_average =
      ((st.mov_average * st.n_samples + (node_power - p)) % 2 ^ 32) /
        (st.n_samples + 1) ∧
    (st.mov_average * st.n_samples + (node_power - p) < 2 ^ 32 →
      (compute_overhead node_power p st).mov_average =
        (st.mov_average * st.n_samples + (node_power - p)) / (st.n_samples + 1)) := by
  have hov : (if p < node_power then node_power - p else 0) = node_power - p := by
    rcases Nat.lt_or_ge p node_power with h | h
    · rw [if_pos h]
    · rw [if_neg (not_lt.mpr h)]
      omega
  have h0 : ((node_power - p : ℕ) : ℤ) = max ((node_power : ℤ) - p) 0 := by
    rcases max_cases ((node_power : ℤ) - (p : ℤ)) 0 with ⟨heq, hc⟩ | ⟨heq, hc⟩ <;>
      rw [heq] <;> omega
  refine ⟨h0, ?_⟩
  unfold compute_overhead
  dsimp only
  rw [if_neg (Nat.pos_iff_ne_zero.mp hp), hov]
  exact ⟨Nat.min_comm _ _, Nat.max_comm _ _, rfl, rfl,
    fun hno => by rw [Nat.mod_eq_of_lt hno]⟩

/-- Witness for C6: one unit reported 2500 J over a 10 s cycle (250 W
measured), node power 300 W, starting from the freshly initialized
statistics; the numerator does not wrap, so the claimed average formula
applies. -/
theorem C6_overhead_statistics_update_witness :
    ((300 - 250 : ℕ) : ℤ) = max ((300 : ℤ) - 250) 0 ∧
    (compute_overhead 300 250 initOverhead).min = Nat.min initOverhead.min (300 - 250) ∧
    (compute_overhead 300 250 initOverhead).max = Nat.max initOverhead.max (300 - 250) ∧
    (compute_overhead 300 250 initOverhead).n_samples = initOverhead.n_samples + 1 ∧
    (compute_overhead 300 250 initOverhead).mov_average =
      (initOverhead.mov_average * initOverhead.n_samples + (300 - 250)) /
        (initOverhead.n_samples + 1) := by
  have h := C6_overhead_statistics_update 300 10 250 [2500] initOverhead
    (by decide) (by decide)
  exact ⟨h.1, h.2.1, h.2.2.1, h.2.2.2.1, h.2.2.2.2.2 (by decide)⟩

/-- Claim C9: resolution discovery for CPU and DRAM packages is lazy and
cached: a fetch with an already positive resolution leaves it unchanged (and
over any trace of further fetches it never changes again), a fetch from the
unknown state decodes the unit register as `0.5` to the masked exponent
field, and every decoded resolution is strictly positive. -/
theorem C9_resolution_lazy_cached :
    (∀ (u : Unit_t) (e m : ℕ), 0 < u.energy_resolution →
      (cpu_package_fetch_energy u e m).energy_resolution = u.energy_resolution ∧
      (dram_package_fetch_energy u e m).energy_resolution = u.energy_resolution) ∧
    (∀ (u : Unit_t) (e m : ℕ), u.energy_resolution = 0 →
      (cpu_package_fetch_energy u e m).energy_resolution = decodeResolution m ∧
      (dram_package_fetch_energy u e m).energy_resolution = decodeResolution m) ∧
    (∀ m : ℕ, 0 < decodeResolution m) ∧
    (∀ (u : Unit_t) (l : List (ℕ × ℕ)), 0 < u.energy_resolution →
      (runCpuFetch u l).energy_resolution = u.energy_resolution) := by
  refine ⟨fun u e m h => ⟨cpu_package_fetch_energy_res_pos e m h,
      dram_package_fetch_energy_res_pos e m h⟩,
    fun u e m h => ⟨cpu_package_fetch_energy_res_zero e m h,
      dram_package_fetch_energy_res_zero e m h⟩,
    decodeResolution_pos, ?_⟩
  intro u l
  induction l generalizing u with
  | nil => intro h; rfl
  | cons s rest ih =>
    intro h
    show (runCpuFetch (cpu_package_fetch_energy u s.1 s.2) rest).energy_resolution =
      u.energy_resolution
    rw [ih _ (by rw [cpu_package_fetch_energy_res_pos s.1 s.2 h]; exact h),
      cpu_package_fetch_energy_res_pos s.1 s.2 h]

/-- Witness for C9: a cached resolution of `2^-10` survives a fetch and a
two-cycle trace; from the unknown state the unit register `0x0A00` decodes to
the strictly positive `0.5^10`. -/
theorem C9_resolution_lazy_cached_witness :
    (cpu_package_fetch_energy { initUnit with energy_resolution := 1 / 1024 }
      7 0).energy_resolution = (1 / 1024 : ℚ) ∧
    (cpu_package_fetch_energy initUnit 7 2560).energy_resolution = decodeResolution 2560 ∧
    0 < decodeResolution 2560 ∧
    (runCpuFetch { initUnit with energy_resolution := 1 / 1024 }
      [(7, 0), (8, 1)]).energy_resolution = (1 / 1024 : ℚ) :=
  ⟨(C9_resolution_lazy_cached.1 _ 7 0 (by norm_num)).1,
   (C9_resolution_lazy_cached.2.1 _ 7 2560 rfl).1,
   C9_resolution_lazy_cached.2.2.1 2560,
   C9_resolution_lazy_cached.2.2.2 _ [(7, 0), (8, 1)] (by norm_num)⟩

/-- Claim C10: an Intel GPU unit whose model is Max 1550 attributes to every
non-first sample the raw microjoule delta divided by `10^6` and then halved
with integer division (a fixed 50/50 tile split with no utilization weighting
and no idle floor), and accumulates exactly that amount. -/
theorem C10_intel_dual_tile_split (dev : Unit_t) (raw : ℕ)
    (hm : dev.model = MAX1550) (h0 : dev.energy_raw ≠ 0) (hle : dev.energy_raw ≤ raw) :
    (intel_device_update_files dev raw).map
        (fun p => (p.energy_interval, p.energy_acc)) =
      some ((raw - dev.energy_raw) / 1000000 / 2,
            dev.energy_acc + (raw - dev.energy_raw) / 1000000 / 2) := by
  simp [intel_device_update_files, h0, hm, Nat.not_lt.mpr hle]

/-- Witness for C10: a Max 1550 unit with a 4-joule microjoule delta. -/
theorem C10_intel_dual_tile_split_witness :
    (intel_device_update_files { initUnit with model := 1550, energy_raw := 5000000 }
        9000000).map (fun p => (p.energy_interval, p.energy_acc)) =
      some ((9000000 - 5000000) / 1000000 / 2, 0 + (9000000 - 5000000) / 1000000 / 2) :=
  C10_intel_dual_tile_split { initUnit with model := 1550, energy_raw := 5000000 }
    9000000 rfl (by decide) (by decide)

end EnergyCounter
